import Mathlib

set_option maxRecDepth 8000

/-!
Verification of the `python_anvil` API facade (`python_anvil/api.py`).

The facade is glue code over HTTP: it normalizes request payloads
(dict / JSON string / typed instance), builds GraphQL query strings or
REST calls, and unwraps JSON responses.  We embed the payload shaping and
response unwrapping logic shallowly:

* Python/JSON values are the inductive type `Val`; a Python dict is an
  association list `List (String × Val)` (keys are unique in all values
  the client ever builds or receives, so first-match lookup coincides
  with Python dict lookup).
* Python exceptions become `Except AnvilError _`; an `Except.error`
  result models an exception raised before any network request is made,
  and an `Except.ok` result carries the single request that the call
  sends (each facade method performs at most one network call).
* Partial dict indexing (`r["data"]["cast"]`, which can raise `KeyError`
  or `TypeError`) becomes `Option`-valued lookup.

The pydantic payload classes (`FillPDFPayload`, `GeneratePDFPayload`,
`CreateEtchPacketPayload`, `ForgeSubmitPayload`) and the mutation
wrappers live in `api_resources`, which is not part of the sources under
verification; those are modelled from the spec, as marked on each such
definition.
-/

/-- A Python/JSON value as seen by the facade. -/
inductive Val where
  | null
  | bool (b : Bool)
  | num (n : Int)
  | str (s : String)
  | list (items : List Val)
  | dict (fields : List (String × Val))
deriving Repr

/-- First-match lookup in an association list, modelling `k in d` /
`d[k]` on a Python dict (keys are unique in every dict this client
handles, so first-match agrees with Python semantics). -/
def dlookup (d : List (String × Val)) (k : String) : Option Val :=
  match d with
  | [] => none
  | (k2, v) :: rest => if k2 = k then some v else dlookup rest k

/-- Subscript access `v[k]`: a value for dicts holding the key, `none`
(a `KeyError`/`TypeError` in Python) otherwise. -/
def Val.getKey (v : Val) (k : String) : Option Val :=
  match v with
  | .dict fields => dlookup fields k
  | _ => none

/-- `_get_return` from `api.py`: if the raw result `res` has both a
"response" and a "headers" key, apply `get_data` to the nested response
and rewrap together with the original headers; otherwise apply
`get_data` to `res` itself.  `get_data` is `Option`-valued because the
extraction functions index into the response and can fail. -/
def _get_return (res : List (String × Val)) (get_data : Val → Option Val) : Option Val :=
  match dlookup res "response", dlookup res "headers" with
  | some r, some h => (get_data r).map fun d => Val.dict [("response", d), ("headers", h)]
  | _, _ => get_data (Val.dict res)

/-- Exceptions the facade raises itself before performing any network
call.  `valueError` covers Python `ValueError` and pydantic
`ValidationError` (a `ValueError` subclass); `typeError` is Python
`TypeError`. -/
inductive AnvilError where
  | typeError
  | valueError
deriving Repr, DecidableEq

/-- Modelled from the spec: a raw JSON string argument, represented by
its parse outcome (the pydantic `parse_raw` JSON machinery lives in
`api_resources.payload`, outside the sources under verification).
`empty` is the empty string, which is Python-falsy and not valid JSON;
`malformed` is a non-empty string that does not parse to a JSON object;
`ofDict d` is a non-empty string parsing to the JSON object `d`. -/
inductive JsonStr where
  | empty
  | malformed
  | ofDict (d : List (String × Val))
deriving Repr

/-- Python truthiness of a string: only the empty string is falsy. -/
def JsonStr.truthy : JsonStr → Bool
  | .empty => false
  | _ => true

/-- Modelled from the spec: the fill-PDF payload type
(`api_resources.payload.FillPDFPayload`, not under the verified
sources): a typed record with a required `data` field holding the
fill data and an optional `title`; construction from a mapping fails
with a data (value) error when a required field is absent. -/
structure FillPDFPayload where
  data : Val
  title : Option Val := none
deriving Repr

/-- Modelled from the spec: construction of a `FillPDFPayload` from a
mapping (`FillPDFPayload(**payload)`); a missing required field is a
value error. -/
def FillPDFPayload.fromDict (d : List (String × Val)) : Except AnvilError FillPDFPayload :=
  match dlookup d "data" with
  | some v => .ok { data := v, title := dlookup d "title" }
  | none => .error .valueError

/-- Modelled from the spec: `FillPDFPayload.parse_raw`, parsing a JSON
string and validating it the same way as construction from a mapping. -/
def FillPDFPayload.parseRaw : JsonStr → Except AnvilError FillPDFPayload
  | .ofDict d => FillPDFPayload.fromDict d
  | _ => .error .valueError

/-- Modelled from the spec: serialization
`data.dict(by_alias=True, exclude_none=True)`; fields holding `None`
are omitted from the body. -/
def FillPDFPayload.serialize (p : FillPDFPayload) : List (String × Val) :=
  [("data", p.data)] ++ (match p.title with
    | some t => [("title", t)]
    | none => [])

/-- Modelled from the spec: the generate-PDF payload type
(`api_resources.payload.GeneratePDFPayload`), with the same shape of
required/optional fields as the fill-PDF payload. -/
structure GeneratePDFPayload where
  data : Val
  title : Option Val := none
deriving Repr

/-- Modelled from the spec: construction of a `GeneratePDFPayload` from
a mapping; a missing required field is a value error. -/
def GeneratePDFPayload.fromDict (d : List (String × Val)) : Except AnvilError GeneratePDFPayload :=
  match dlookup d "data" with
  | some v => .ok { data := v, title := dlookup d "title" }
  | none => .error .valueError

/-- Modelled from the spec: `GeneratePDFPayload.parse_raw`. -/
def GeneratePDFPayload.parseRaw : JsonStr → Except AnvilError GeneratePDFPayload
  | .ofDict d => GeneratePDFPayload.fromDict d
  | _ => .error .valueError

/-- Modelled from the spec: serialization of a generate-PDF payload with
`None` fields omitted. -/
def GeneratePDFPayload.serialize (p : GeneratePDFPayload) : List (String × Val) :=
  [("data", p.data)] ++ (match p.title with
    | some t => [("title", t)]
    | none => [])

/-- A Python argument passed as `payload`: a dict, a JSON string, a
typed payload instance of type `P`, Python `None`, or a value of any
other type (about which only its Python truthiness matters). -/
inductive PayloadInput (P : Type) where
  | dict (d : List (String × Val))
  | str (s : JsonStr)
  | typed (p : P)
  | pynone
  | other (truthy : Bool)

/-- Python truthiness of a `payload` argument: `None`, empty dicts and
empty strings are falsy; pydantic payload instances are truthy. -/
def PayloadInput.truthy {P : Type} : PayloadInput P → Bool
  | .dict d => !d.isEmpty
  | .str s => s.truthy
  | .typed _ => true
  | .pynone => false
  | .other b => b

/-- A single REST POST request as handed to `RestRequest.post`. -/
structure RestCall where
  path : String
  body : List (String × Val)
  params : Option (List (String × Int)) := none
deriving Repr

/-- The `params` kwarg produced from `version_number` in `fill_pdf`:
Python `if version_number:` installs `{"versionNumber": version_number}`
only when `version_number` is neither `None` nor `0`. -/
def version_params (version_number : Option Int) : Option (List (String × Int)) :=
  match version_number with
  | some v => if v ≠ 0 then some [("versionNumber", v)] else none
  | none => none

/-- `Anvil.fill_pdf` from `api.py`: normalize `payload` into a
`FillPDFPayload` (a value error for a dict missing required fields, an
unparsable JSON string, or an argument of unsupported type), then POST
the serialized payload to `fill/{template_id}.pdf` with an optional
`versionNumber` query parameter.  The `Except.ok` value is the single
REST POST issued; an error is raised before any request is made. -/
def fill_pdf (template_id : String) (payload : PayloadInput FillPDFPayload)
    (version_number : Option Int) : Except AnvilError RestCall :=
  match (match payload with
    | .dict d => FillPDFPayload.fromDict d
    | .str s => FillPDFPayload.parseRaw s
    | .typed p => .ok p
    | .pynone => .error .valueError
    | .other _ => .error .valueError) with
  | .error e => .error e
  | .ok data =>
    .ok { path := "fill/" ++ template_id ++ ".pdf",
          body := data.serialize,
          params := version_params version_number }

/-- `Anvil.generate_pdf` from `api.py`: reject a Python-falsy payload
with a value error, otherwise normalize exactly as `fill_pdf` does and
POST the serialized payload to `generate-pdf`. -/
def generate_pdf (payload : PayloadInput GeneratePDFPayload) :
    Except AnvilError RestCall :=
  if payload.truthy then
    match (match payload with
      | .dict d => GeneratePDFPayload.fromDict d
      | .str s => GeneratePDFPayload.parseRaw s
      | .typed p => .ok p
      | .pynone => .error .valueError
      | .other _ => .error .valueError) with
    | .error e => .error e
    | .ok data =>
      .ok { path := "generate-pdf", body := data.serialize, params := none }
  else .error .valueError

/-- Modelled from the spec: `CreateEtchPacketPayload`
(`api_resources.payload`, not under the verified sources): the typed
etch-packet payload, with a required `name` field and optional
signer data. -/
structure CreateEtchPacketPayload where
  name : Val
  signers : Option Val := none
deriving Repr

/-- Modelled from the spec: construction of a `CreateEtchPacketPayload`
from a mapping; a missing required field is a value error. -/
def CreateEtchPacketPayload.fromDict (d : List (String × Val)) :
    Except AnvilError CreateEtchPacketPayload :=
  match dlookup d "name" with
  | some v => .ok { name := v, signers := dlookup d "signers" }
  | none => .error .valueError

/-- Modelled from the spec: `CreateEtchPacketPayload.parse_raw`. -/
def CreateEtchPacketPayload.parseRaw : JsonStr → Except AnvilError CreateEtchPacketPayload
  | .ofDict d => CreateEtchPacketPayload.fromDict d
  | _ => .error .valueError

/-- Modelled from the spec: the `CreateEtchPacket` mutation wrapper, a
typed wrapper pairing a payload with mutation-string generation and
multipart file extraction. -/
structure CreateEtchPacket where
  payload : CreateEtchPacketPayload
deriving Repr

/-- Modelled from the spec: `CreateEtchPacket.create_from_dict`, which
builds the mutation from a mapping by validating it into a payload. -/
def CreateEtchPacket.create_from_dict (d : List (String × Val)) :
    Except AnvilError CreateEtchPacket :=
  (CreateEtchPacketPayload.fromDict d).map fun p => { payload := p }

/-- A Python value passed as the `payload` argument of
`create_etch_packet`: a dict, a typed payload, a typed mutation, or a
value of any other type (including strings, which the dispatch does not
handle). -/
inductive EtchPayloadArg where
  | dict (d : List (String × Val))
  | typedPayload (p : CreateEtchPacketPayload)
  | typedMutation (m : CreateEtchPacket)
  | other (truthy : Bool)

/-- Python truthiness of an etch `payload` argument. -/
def EtchPayloadArg.truthy : EtchPayloadArg → Bool
  | .dict d => !d.isEmpty
  | .typedPayload _ => true
  | .typedMutation _ => true
  | .other b => b

/-- Truthiness of an optional argument: an absent argument is falsy. -/
def optArgTruthy : Option EtchPayloadArg → Bool
  | none => false
  | some a => a.truthy

/-- Truthiness of the optional `json` argument. -/
def optJsonTruthy : Option JsonStr → Bool
  | none => false
  | some j => j.truthy

/-- The `if json:` step of `create_etch_packet`: a truthy `json`
argument replaces `payload` with the parsed typed payload; otherwise
`payload` is kept as passed. -/
def etch_effective_payload (payload : Option EtchPayloadArg) :
    Option JsonStr → Except AnvilError (Option EtchPayloadArg)
  | some j =>
    if j.truthy then
      (CreateEtchPacketPayload.parseRaw j).map fun p => some (.typedPayload p)
    else .ok payload
  | none => .ok payload

/-- `Anvil.create_etch_packet` from `api.py`: a type error when
`any([payload, json])` is false, then dispatch on the (possibly
json-derived) payload; the `Except.ok` value is the mutation handed to
`get_multipart_payload`/`mutate_multipart`, the one network call. -/
def create_etch_packet (payload : Option EtchPayloadArg) (json : Option JsonStr) :
    Except AnvilError CreateEtchPacket :=
  if optArgTruthy payload || optJsonTruthy json then
    match etch_effective_payload payload json with
    | .error e => .error e
    | .ok (some (.dict d)) => CreateEtchPacket.create_from_dict d
    | .ok (some (.typedPayload p)) => .ok { payload := p }
    | .ok (some (.typedMutation m)) => .ok m
    | .ok (some (.other _)) => .error .valueError
    | .ok none => .error .valueError
  else .error .typeError

/-- Modelled from the spec: `ForgeSubmitPayload`
(`api_resources.payload`), with a required `forgeEid` field and
optional submission data. -/
structure ForgeSubmitPayload where
  forge_eid : Val
  data : Option Val := none
deriving Repr

/-- Modelled from the spec: construction of a `ForgeSubmitPayload` from
a mapping; a missing required field is a value error. -/
def ForgeSubmitPayload.fromDict (d : List (String × Val)) :
    Except AnvilError ForgeSubmitPayload :=
  match dlookup d "forgeEid" with
  | some v => .ok { forge_eid := v, data := dlookup d "data" }
  | none => .error .valueError

/-- Modelled from the spec: `ForgeSubmitPayload.parse_raw`. -/
def ForgeSubmitPayload.parseRaw : JsonStr → Except AnvilError ForgeSubmitPayload
  | .ofDict d => ForgeSubmitPayload.fromDict d
  | _ => .error .valueError

/-- Modelled from the spec: serialization of a forge-submit payload
with `None` fields omitted
(`create_payload().dict(by_alias=True, exclude_none=True)`). -/
def ForgeSubmitPayload.serialize (p : ForgeSubmitPayload) : List (String × Val) :=
  [("forgeEid", p.forge_eid)] ++ (match p.data with
    | some v => [("data", v)]
    | none => [])

/-- Modelled from the spec: the `ForgeSubmit` mutation wrapper. -/
structure ForgeSubmit where
  payload : ForgeSubmitPayload
deriving Repr

/-- Modelled from the spec: `ForgeSubmit.create_from_dict`. -/
def ForgeSubmit.create_from_dict (d : List (String × Val)) :
    Except AnvilError ForgeSubmit :=
  (ForgeSubmitPayload.fromDict d).map fun p => { payload := p }

/-- Modelled from the spec: `mutation.create_payload()` recovers the
wrapped payload. -/
def ForgeSubmit.create_payload (m : ForgeSubmit) : ForgeSubmitPayload :=
  m.payload

/-- A (non-multipart) GraphQL mutation call as handed to
`Anvil.mutate`: the mutation and its serialized variables. -/
structure GqlMutationCall where
  mutation : ForgeSubmit
  vars : List (String × Val)
deriving Repr

/-- A Python value passed as the `payload` argument of `forge_submit`:
a dict, a typed payload, or a value of any other type. -/
inductive ForgePayloadArg where
  | dict (d : List (String × Val))
  | typedPayload (p : ForgeSubmitPayload)
  | other (truthy : Bool)

/-- Python truthiness of a forge `payload` argument. -/
def ForgePayloadArg.truthy : ForgePayloadArg → Bool
  | .dict d => !d.isEmpty
  | .typedPayload _ => true
  | .other b => b

/-- Truthiness of the optional forge `payload` argument. -/
def optForgeTruthy : Option ForgePayloadArg → Bool
  | none => false
  | some a => a.truthy

/-- The `if json:` step of `forge_submit`. -/
def forge_effective_payload (payload : Option ForgePayloadArg) :
    Option JsonStr → Except AnvilError (Option ForgePayloadArg)
  | some j =>
    if j.truthy then
      (ForgeSubmitPayload.parseRaw j).map fun p => some (.typedPayload p)
    else .ok payload
  | none => .ok payload

/-- `Anvil.forge_submit` from `api.py`: a type error when
`any([json, payload])` is false, then dispatch on the (possibly
json-derived) payload; the `Except.ok` value is the single GraphQL
mutation call issued with the serialized payload as variables. -/
def forge_submit (payload : Option ForgePayloadArg) (json : Option JsonStr) :
    Except AnvilError GqlMutationCall :=
  if optJsonTruthy json || optForgeTruthy payload then
    match forge_effective_payload payload json with
    | .error e => .error e
    | .ok (some (.dict d)) =>
      (ForgeSubmit.create_from_dict d).map fun m =>
        { mutation := m, vars := m.create_payload.serialize }
    | .ok (some (.typedPayload p)) =>
      .ok { mutation := { payload := p },
            vars := (ForgeSubmit.create_payload { payload := p }).serialize }
    | .ok (some (.other _)) => .error .valueError
    | .ok none => .error .valueError
  else .error .typeError

/-- Python `sep.join(parts)`. -/
def pyJoin (sep : String) : List String → String
  | [] => ""
  | [x] => x
  | x :: xs => x ++ sep ++ pyJoin sep xs

/-- `needle` occurs as a contiguous substring of `hay`. -/
def substrOf (needle hay : String) : Prop :=
  needle.toList <:+: hay.toList

/-- `Anvil.VERSION_LATEST`: sentinel for the latest (draft) version. -/
def VERSION_LATEST : Int := -1

/-- `Anvil.VERSION_LATEST_PUBLISHED`: sentinel for the latest published
version, the server default when no version is sent. -/
def VERSION_LATEST_PUBLISHED : Int := -2

/-- The `cast_args` list assembled by `Anvil.get_cast`: the caller's
pairs, then `("eid", "\"<eid>\"")`, then — only when `version_number`
is truthy, i.e. neither `None` nor `0` — the pair
`("versionNumber", str(version_number))`. -/
def get_cast_args (eid : String) (version_number : Option Int)
    (cast_args : List (String × String)) : List (String × String) :=
  let ca := cast_args ++ [("eid", "\"" ++ eid ++ "\"")]
  match version_number with
  | some v => if v ≠ 0 then ca ++ [("versionNumber", toString v)] else ca
  | none => ca

/-- The GraphQL query string built by `Anvil.get_cast`: default fields
`eid title fieldInfo` when none are given, and an argument list
rendered as `(k1:v1,k2:v2,...)`. -/
def get_cast_query (eid : String) (fields : List String) (version_number : Option Int)
    (cast_args : List (String × String)) : String :=
  let fields := if fields.isEmpty then ["eid", "title", "fieldInfo"] else fields
  let args := get_cast_args eid version_number cast_args
  let arg_str := if args.isEmpty then "" else
    "(" ++ pyJoin "," (args.map fun a => a.1 ++ ":" ++ a.2) ++ ")"
  "\x7b\n              cast " ++ arg_str ++ " \x7b\n                "
    ++ pyJoin " " fields ++ "\n              \x7d\n            \x7d"

/-- The extraction function of `get_cast`: `r["data"]["cast"]`. -/
def cast_get_data (r : Val) : Option Val :=
  (r.getKey "data").bind fun d => d.getKey "cast"

/-- The unwrapped return value of `get_cast` on raw response `res`. -/
def get_cast_result (res : List (String × Val)) : Option Val :=
  _get_return res cast_get_data

/-- The GraphQL query string built by `Anvil.get_casts`: traverses
`currentUser → organizations → casts`, filtering
`(isTemplate: true)` unless `show_all` is set. -/
def get_casts_query (fields : List String) (show_all : Bool) : String :=
  let fields := if fields.isEmpty then ["eid", "title", "fieldInfo"] else fields
  let cast_args := if show_all then "" else "(isTemplate: true)"
  "\x7b\n              currentUser \x7b\n                organizations \x7b\n                  casts "
    ++ cast_args ++ " \x7b\n                    " ++ pyJoin " " fields
    ++ "\n                  \x7d\n                \x7d\n              \x7d\n            \x7d"

/-- One organization's `org["casts"]` list; `none` models the
`KeyError`/`TypeError` raised when the shape is wrong. -/
def org_casts (v : Val) : Option (List Val) :=
  match v.getKey "casts" with
  | some (.list items) => some items
  | _ => none

/-- The extraction function of `get_casts`:
`[item for org in r["data"]["currentUser"]["organizations"] for item in org["casts"]]`. -/
def casts_get_data (r : Val) : Option Val :=
  match r.getKey "data" with
  | some d =>
    match d.getKey "currentUser" with
    | some cu =>
      match cu.getKey "organizations" with
      | some (.list orgs) => (orgs.mapM org_casts).map fun css => .list css.flatten
      | _ => none
    | none => none
  | none => none

/-- The unwrapped return value of `get_casts` on raw response `res`. -/
def get_casts_result (res : List (String × Val)) : Option Val :=
  _get_return res casts_get_data

/-- One organization's `org["welds"]` list. -/
def org_welds (v : Val) : Option (List Val) :=
  match v.getKey "welds" with
  | some (.list items) => some items
  | _ => none

/-- The extraction function of `get_welds`:
`[item for org in r["data"]["currentUser"]["organizations"] for item in org["welds"]]`. -/
def welds_get_data (r : Val) : Option Val :=
  match r.getKey "data" with
  | some d =>
    match d.getKey "currentUser" with
    | some cu =>
      match cu.getKey "organizations" with
      | some (.list orgs) => (orgs.mapM org_welds).map fun wss => .list wss.flatten
      | _ => none
    | none => none
  | none => none

/-- The unwrapped return value of `get_welds` on raw response `res`. -/
def get_welds_result (res : List (String × Val)) : Option Val :=
  _get_return res welds_get_data

/-- C1: for every raw result `res` and extraction function `f`, the
response-unwrapping step returns the struct
`{"response": f(res["response"]), "headers": res["headers"]}` whenever
`res` contains both a "response" and a "headers" key, and returns
`f(res)` otherwise. -/
theorem get_return_unwrap (res : List (String × Val)) (f : Val → Option Val) :
    (∀ r h, dlookup res "response" = some r → dlookup res "headers" = some h →
      _get_return res f = (f r).map fun d => Val.dict [("response", d), ("headers", h)])
    ∧ ((dlookup res "response" = none ∨ dlookup res "headers" = none) →
      _get_return res f = f (Val.dict res)) := by
  constructor
  · intro r h hr hh
    simp [_get_return, hr, hh]
  · intro hcase
    rcases hcase with h | h
    · cases hh : dlookup res "headers" <;> simp [_get_return, h, hh]
    · cases hr : dlookup res "response" <;> simp [_get_return, h, hr]

/-- Witness for C1 at a concrete enveloped response. -/
theorem get_return_unwrap_witness :
    _get_return [("response", Val.dict [("data", Val.num 1)]), ("headers", Val.str "h")]
        (fun r : Val => r.getKey "data")
      = ((fun r : Val => r.getKey "data") (Val.dict [("data", Val.num 1)])).map
          fun d => Val.dict [("response", d), ("headers", Val.str "h")] :=
  (get_return_unwrap
      [("response", Val.dict [("data", Val.num 1)]), ("headers", Val.str "h")]
      (fun r : Val => r.getKey "data")).1
    (Val.dict [("data", Val.num 1)]) (Val.str "h") rfl rfl

/-- C2: one logical payload value, supplied as a mapping, as a JSON
string, or as the typed instance itself, produces an identical
serialized request (path, body and params all equal) for both
`fill_pdf` and `generate_pdf`. -/
theorem payload_forms_agree
    (d : List (String × Val)) (s : JsonStr) (p : FillPDFPayload)
    (hd : FillPDFPayload.fromDict d = .ok p)
    (hs : FillPDFPayload.parseRaw s = .ok p)
    (d2 : List (String × Val)) (s2 : JsonStr) (p2 : GeneratePDFPayload)
    (hd2 : GeneratePDFPayload.fromDict d2 = .ok p2)
    (hs2 : GeneratePDFPayload.parseRaw s2 = .ok p2)
    (template_id : String) (version_number : Option Int) :
    (fill_pdf template_id (.dict d) version_number
        = fill_pdf template_id (.typed p) version_number
      ∧ fill_pdf template_id (.str s) version_number
        = fill_pdf template_id (.typed p) version_number)
    ∧ (generate_pdf (.dict d2) = generate_pdf (.typed p2)
      ∧ generate_pdf (.str s2) = generate_pdf (.typed p2)) := by
  refine ⟨⟨?_, ?_⟩, ?_, ?_⟩
  · simp [fill_pdf, hd]
  · simp [fill_pdf, hs]
  · cases d2 with
    | nil => simp [GeneratePDFPayload.fromDict, dlookup] at hd2
    | cons kv rest => simp [generate_pdf, PayloadInput.truthy, hd2]
  · cases s2 with
    | empty => simp [GeneratePDFPayload.parseRaw] at hs2
    | malformed => simp [GeneratePDFPayload.parseRaw] at hs2
    | ofDict d3 =>
      simp [generate_pdf, PayloadInput.truthy, JsonStr.truthy, hs2]

/-- Witness for C2 at a concrete logical payload in all three forms. -/
theorem payload_forms_agree_witness :
    (fill_pdf "t" (.dict [("data", Val.dict [])]) none
        = fill_pdf "t" (.typed { data := Val.dict [] }) none
      ∧ fill_pdf "t" (.str (.ofDict [("data", Val.dict [])])) none
        = fill_pdf "t" (.typed { data := Val.dict [] }) none)
    ∧ (generate_pdf (.dict [("data", Val.dict [])])
        = generate_pdf (.typed { data := Val.dict [] })
      ∧ generate_pdf (.str (.ofDict [("data", Val.dict [])]))
        = generate_pdf (.typed { data := Val.dict [] })) :=
  payload_forms_agree [("data", Val.dict [])] (.ofDict [("data", Val.dict [])])
    { data := Val.dict [] } rfl rfl
    [("data", Val.dict [])] (.ofDict [("data", Val.dict [])])
    { data := Val.dict [] } rfl rfl "t" none

/-- C3: `fill_pdf` raises a value error when the payload mapping is
missing the required field; raises a value error when the payload is
not a mapping, string, or typed instance; and when validation succeeds
it issues exactly one REST POST to `fill/{template_id}.pdf` whose body
is the serialized payload. -/
theorem fill_pdf_spec (template_id : String) (version_number : Option Int) :
    (∀ d, dlookup d "data" = none →
      fill_pdf template_id (.dict d) version_number = .error .valueError)
    ∧ (∀ b, fill_pdf template_id (.other b) version_number = .error .valueError)
    ∧ (∀ d p, FillPDFPayload.fromDict d = .ok p →
      fill_pdf template_id (.dict d) version_number
        = .ok { path := "fill/" ++ template_id ++ ".pdf",
                body := p.serialize,
                params := version_params version_number }) := by
  refine ⟨?_, ?_, ?_⟩
  · intro d h
    simp [fill_pdf, FillPDFPayload.fromDict, h]
  · intro b
    rfl
  · intro d p h
    simp [fill_pdf, h]

/-- Witness for C3: a mapping without the required field, an unsupported
argument, and a valid mapping. -/
theorem fill_pdf_spec_witness :
    fill_pdf "tpl" (.dict [("title", Val.str "x")]) none = .error .valueError
    ∧ fill_pdf "tpl" (.other true) none = .error .valueError
    ∧ fill_pdf "tpl" (.dict [("data", Val.num 3)]) none
      = .ok { path := "fill/" ++ "tpl" ++ ".pdf",
              body := FillPDFPayload.serialize { data := Val.num 3 },
              params := version_params none } :=
  ⟨(fill_pdf_spec "tpl" none).1 [("title", Val.str "x")] rfl,
   (fill_pdf_spec "tpl" none).2.1 true,
   (fill_pdf_spec "tpl" none).2.2 [("data", Val.num 3)] { data := Val.num 3 } rfl⟩

/-- C8: `generate_pdf` with an empty payload (`None`, an empty dict, or
an empty string) or with a payload of an unsupported type raises a
value error; the error is raised before the REST call, so no request is
issued. -/
theorem generate_pdf_empty_or_bad (payload : PayloadInput GeneratePDFPayload)
    (h : payload = .pynone ∨ payload = .dict [] ∨ payload = .str .empty
      ∨ ∃ b, payload = .other b) :
    generate_pdf payload = .error .valueError := by
  rcases h with h | h | h | ⟨b, h⟩ <;> subst h
  · rfl
  · rfl
  · rfl
  · cases b <;> rfl

/-- Witness for C8 at each of the empty/unsupported payload shapes. -/
theorem generate_pdf_empty_or_bad_witness :
    generate_pdf .pynone = .error .valueError :=
  generate_pdf_empty_or_bad .pynone (Or.inl rfl)

/-- The json-override step of `create_etch_packet` never raises a type
error: its only failure is a parse/validation (value) error. -/
theorem etch_effective_ne_typeError (payload : Option EtchPayloadArg) (json : Option JsonStr) :
    etch_effective_payload payload json ≠ .error .typeError := by
  cases json with
  | none => simp [etch_effective_payload]
  | some j =>
    cases j with
    | empty => simp [etch_effective_payload, JsonStr.truthy]
    | malformed =>
      simp [etch_effective_payload, JsonStr.truthy, CreateEtchPacketPayload.parseRaw,
        Except.map]
    | ofDict d =>
      cases hlk : dlookup d "name" <;>
        simp [etch_effective_payload, JsonStr.truthy, CreateEtchPacketPayload.parseRaw,
          CreateEtchPacketPayload.fromDict, hlk, Except.map]

/-- Building the etch mutation from a dict never raises a type error. -/
theorem etch_create_from_dict_ne_typeError (d : List (String × Val)) :
    CreateEtchPacket.create_from_dict d ≠ .error .typeError := by
  cases hlk : dlookup d "name" <;>
    simp [CreateEtchPacket.create_from_dict, CreateEtchPacketPayload.fromDict, hlk, Except.map]

/-- C4 (amended): `create_etch_packet` raises a type error if and only
if both the `payload` and the `json` argument are Python-falsy (absent,
an empty dict, or an empty string); it raises a value error when `json`
is falsy and a truthy `payload` of an unsupported type is given; the
error is the call's result, so no network call is made in either case. -/
theorem create_etch_packet_errors (payload : Option EtchPayloadArg) (json : Option JsonStr) :
    (create_etch_packet payload json = .error .typeError
      ↔ optArgTruthy payload = false ∧ optJsonTruthy json = false)
    ∧ (optJsonTruthy json = false → payload = some (.other true) →
        create_etch_packet payload json = .error .valueError) := by
  constructor
  · constructor
    · intro h
      by_cases hg : (optArgTruthy payload || optJsonTruthy json) = true
      · exfalso
        rw [create_etch_packet, if_pos hg] at h
        cases heff : etch_effective_payload payload json with
        | error e =>
          cases e with
          | typeError => exact etch_effective_ne_typeError payload json heff
          | valueError => rw [heff] at h; simp at h
        | ok eff =>
          rw [heff] at h
          cases eff with
          | none => simp at h
          | some a =>
            cases a with
            | dict d => exact etch_create_from_dict_ne_typeError d (by simpa using h)
            | typedPayload p => simp at h
            | typedMutation m => simp at h
            | other b => simp at h
      · simpa [not_or] using hg
    · rintro ⟨h1, h2⟩
      simp [create_etch_packet, h1, h2]
  · intro hj hp
    subst hp
    cases json with
    | none =>
      simp [create_etch_packet, optArgTruthy, EtchPayloadArg.truthy,
        etch_effective_payload, optJsonTruthy]
    | some j =>
      have hjt : j.truthy = false := by simpa [optJsonTruthy] using hj
      simp [create_etch_packet, optArgTruthy, EtchPayloadArg.truthy,
        etch_effective_payload, optJsonTruthy, hjt]

/-- C4 counterexample: the `payload` argument is given — an empty dict
is a present argument, distinct from an absent one — and `json` is not
given, yet a type error is raised: the code tests Python truthiness
(`any([payload, json])`), not argument presence. -/
theorem create_etch_packet_empty_payload_counterexample :
    some (EtchPayloadArg.dict []) ≠ (none : Option EtchPayloadArg)
    ∧ create_etch_packet (some (.dict [])) none = .error .typeError :=
  ⟨by simp, by simp [create_etch_packet, optArgTruthy, EtchPayloadArg.truthy, optJsonTruthy]⟩

/-- Witness for C4: both error shapes at concrete arguments. -/
theorem create_etch_packet_errors_witness :
    create_etch_packet none none = .error .typeError
    ∧ create_etch_packet (some (.other true)) none = .error .valueError :=
  ⟨(create_etch_packet_errors none none).1.mpr ⟨rfl, rfl⟩,
   (create_etch_packet_errors (some (.other true)) none).2 rfl rfl⟩

/-- C9: when both `payload` and `json` are given and non-empty, no
conflict error is raised: `json` takes precedence and the `payload`
argument is ignored, so the request issued is the one derived from
parsing `json`, for both `create_etch_packet` and `forge_submit`. -/
theorem json_overrides_payload (j : JsonStr) (hj : j.truthy = true)
    (p q : EtchPayloadArg) (r s : ForgePayloadArg) :
    (create_etch_packet (some p) (some j) = create_etch_packet (some q) (some j)
      ∧ create_etch_packet (some p) (some j)
        = (CreateEtchPacketPayload.parseRaw j).map fun pl => { payload := pl })
    ∧ (forge_submit (some r) (some j) = forge_submit (some s) (some j)
      ∧ forge_submit (some r) (some j)
        = (ForgeSubmitPayload.parseRaw j).map fun pl =>
            { mutation := { payload := pl },
              vars := ForgeSubmitPayload.serialize pl }) := by
  have key : ∀ a : EtchPayloadArg, create_etch_packet (some a) (some j)
      = (CreateEtchPacketPayload.parseRaw j).map fun pl =>
          ({ payload := pl } : CreateEtchPacket) := by
    intro a
    cases hpr : CreateEtchPacketPayload.parseRaw j with
    | error e =>
      simp [create_etch_packet, optJsonTruthy, hj, etch_effective_payload, hpr, Except.map]
    | ok pl =>
      simp [create_etch_packet, optJsonTruthy, hj, etch_effective_payload, hpr, Except.map]
  have key2 : ∀ a : ForgePayloadArg, forge_submit (some a) (some j)
      = (ForgeSubmitPayload.parseRaw j).map fun pl =>
          ({ mutation := { payload := pl },
             vars := ForgeSubmitPayload.serialize pl } : GqlMutationCall) := by
    intro a
    cases hpr : ForgeSubmitPayload.parseRaw j with
    | error e =>
      simp [forge_submit, optJsonTruthy, hj, forge_effective_payload, hpr, Except.map]
    | ok pl =>
      simp [forge_submit, optJsonTruthy, hj, forge_effective_payload, hpr,
        ForgeSubmit.create_payload, Except.map]
  exact ⟨⟨(key p).trans (key q).symm, key p⟩, ⟨(key2 r).trans (key2 s).symm, key2 r⟩⟩

/-- Witness for C9: two different concrete payloads with the same
non-empty `json` yield the same request. -/
theorem json_overrides_payload_witness :
    create_etch_packet (some (.dict [("x", Val.null)]))
        (some (.ofDict [("name", Val.str "n")]))
      = create_etch_packet (some (.other true))
        (some (.ofDict [("name", Val.str "n")])) :=
  (json_overrides_payload (.ofDict [("name", Val.str "n")]) rfl
    (.dict [("x", Val.null)]) (.other true) (.other true) (.other true)).1.1

/-- C10: `version_number = 0` behaves exactly as if the argument were
absent — `fill_pdf` emits no `versionNumber` query parameter and
`get_cast` adds no `versionNumber` argument — because Python
`if version_number:` is a truthiness test; the negative sentinels
`VERSION_LATEST = -1` and `VERSION_LATEST_PUBLISHED = -2` are, by
contrast, passed through. -/
theorem version_zero_falsy :
    (∀ tid payload, fill_pdf tid payload (some 0) = fill_pdf tid payload none)
    ∧ (∀ eid fields ca, get_cast_query eid fields (some 0) ca
        = get_cast_query eid fields none ca)
    ∧ (∀ v, v = VERSION_LATEST ∨ v = VERSION_LATEST_PUBLISHED →
        version_params (some v) = some [("versionNumber", v)]
        ∧ ∀ eid ca, get_cast_args eid (some v) ca
          = ca ++ [("eid", "\"" ++ eid ++ "\""), ("versionNumber", toString v)]) := by
  refine ⟨?_, ?_, ?_⟩
  · intro tid payload
    simp [fill_pdf, version_params]
  · intro eid fields ca
    simp [get_cast_query, get_cast_args]
  · rintro v (rfl | rfl) <;>
      exact ⟨by simp [version_params, VERSION_LATEST, VERSION_LATEST_PUBLISHED],
        fun eid ca => by
          simp [get_cast_args, VERSION_LATEST, VERSION_LATEST_PUBLISHED]⟩

/-- Witness for C10 at concrete calls with versions `0` and `-1`. -/
theorem version_zero_falsy_witness :
    fill_pdf "t" (.typed { data := Val.null }) (some 0)
      = fill_pdf "t" (.typed { data := Val.null }) none
    ∧ version_params (some VERSION_LATEST) = some [("versionNumber", VERSION_LATEST)]
    ∧ get_cast_args "e" (some VERSION_LATEST) []
      = [] ++ [("eid", "\"" ++ "e" ++ "\""), ("versionNumber", toString VERSION_LATEST)] :=
  ⟨version_zero_falsy.1 "t" (.typed { data := Val.null }),
   (version_zero_falsy.2.2 VERSION_LATEST (Or.inl rfl)).1,
   (version_zero_falsy.2.2 VERSION_LATEST (Or.inl rfl)).2 "e" []⟩

/-- C7: when the response data holds a `currentUser` with a list of
organizations, `get_casts` returns the order-preserving concatenation
of the organizations' casts lists, and `get_welds` the order-preserving
concatenation of their welds lists. -/
theorem flatten_across_orgs (res : List (String × Val)) (d cu : Val)
    (orgs : List Val)
    (hbare : dlookup res "response" = none ∨ dlookup res "headers" = none)
    (hd : dlookup res "data" = some d)
    (hcu : d.getKey "currentUser" = some cu)
    (horgs : cu.getKey "organizations" = some (.list orgs)) :
    (∀ css, orgs.mapM org_casts = some css →
      get_casts_result res = some (.list css.flatten))
    ∧ (∀ wss, orgs.mapM org_welds = some wss →
      get_welds_result res = some (.list wss.flatten)) := by
  have hunwrap : ∀ g : Val → Option Val, _get_return res g = g (.dict res) := by
    intro g
    rcases hbare with h | h
    · cases hh : dlookup res "headers" <;> simp [_get_return, h, hh]
    · cases hr : dlookup res "response" <;> simp [_get_return, h, hr]
  have h1 : Val.getKey (Val.dict res) "data" = some d := by
    simpa [Val.getKey] using hd
  constructor
  · intro css hcss
    rw [get_casts_result, hunwrap]
    simp only [casts_get_data, h1, hcu, horgs, hcss]
    rfl
  · intro wss hwss
    rw [get_welds_result, hunwrap]
    simp only [welds_get_data, h1, hcu, horgs, hwss]
    rfl

/-- Witness for C7 on a concrete two-organization response. -/
theorem flatten_across_orgs_witness :
    get_casts_result
        [("data", Val.dict [("currentUser", Val.dict [("organizations", Val.list
          [Val.dict [("casts", Val.list [Val.str "c1", Val.str "c2"]),
                     ("welds", Val.list [Val.str "w1"])],
           Val.dict [("casts", Val.list [Val.str "c3"]),
                     ("welds", Val.list [])]])])])]
      = some (.list ([[Val.str "c1", Val.str "c2"], [Val.str "c3"]] : List (List Val)).flatten)
    ∧ get_welds_result
        [("data", Val.dict [("currentUser", Val.dict [("organizations", Val.list
          [Val.dict [("casts", Val.list [Val.str "c1", Val.str "c2"]),
                     ("welds", Val.list [Val.str "w1"])],
           Val.dict [("casts", Val.list [Val.str "c3"]),
                     ("welds", Val.list [])]])])])]
      = some (.list ([[Val.str "w1"], []] : List (List Val)).flatten) :=
  ⟨(flatten_across_orgs
      [("data", Val.dict [("currentUser", Val.dict [("organizations", Val.list
        [Val.dict [("casts", Val.list [Val.str "c1", Val.str "c2"]),
                   ("welds", Val.list [Val.str "w1"])],
         Val.dict [("casts", Val.list [Val.str "c3"]),
                   ("welds", Val.list [])]])])])]
      (Val.dict [("currentUser", Val.dict [("organizations", Val.list
        [Val.dict [("casts", Val.list [Val.str "c1", Val.str "c2"]),
                   ("welds", Val.list [Val.str "w1"])],
         Val.dict [("casts", Val.list [Val.str "c3"]),
                   ("welds", Val.list [])]])])])
      (Val.dict [("organizations", Val.list
        [Val.dict [("casts", Val.list [Val.str "c1", Val.str "c2"]),
                   ("welds", Val.list [Val.str "w1"])],
         Val.dict [("casts", Val.list [Val.str "c3"]),
                   ("welds", Val.list [])]])])
      [Val.dict [("casts", Val.list [Val.str "c1", Val.str "c2"]),
                 ("welds", Val.list [Val.str "w1"])],
       Val.dict [("casts", Val.list [Val.str "c3"]),
                 ("welds", Val.list [])]]
      (Or.inl rfl) rfl rfl rfl).1
      [[Val.str "c1", Val.str "c2"], [Val.str "c3"]] rfl,
   (flatten_across_orgs
      [("data", Val.dict [("currentUser", Val.dict [("organizations", Val.list
        [Val.dict [("casts", Val.list [Val.str "c1", Val.str "c2"]),
                   ("welds", Val.list [Val.str "w1"])],
         Val.dict [("casts", Val.list [Val.str "c3"]),
                   ("welds", Val.list [])]])])])]
      (Val.dict [("currentUser", Val.dict [("organizations", Val.list
        [Val.dict [("casts", Val.list [Val.str "c1", Val.str "c2"]),
                   ("welds", Val.list [Val.str "w1"])],
         Val.dict [("casts", Val.list [Val.str "c3"]),
                   ("welds", Val.list [])]])])])
      (Val.dict [("organizations", Val.list
        [Val.dict [("casts", Val.list [Val.str "c1", Val.str "c2"]),
                   ("welds", Val.list [Val.str "w1"])],
         Val.dict [("casts", Val.list [Val.str "c3"]),
                   ("welds", Val.list [])]])])
      [Val.dict [("casts", Val.list [Val.str "c1", Val.str "c2"]),
                 ("welds", Val.list [Val.str "w1"])],
       Val.dict [("casts", Val.list [Val.str "c3"]),
                 ("welds", Val.list [])]]
      (Or.inl rfl) rfl rfl rfl).2
      [[Val.str "w1"], []] rfl⟩

/-- Appending strings concatenates their character lists. -/
theorem toList_append (a b : String) : (a ++ b).toList = a.toList ++ b.toList :=
  String.data_append a b

/-- Every character of `pyJoin sep parts` comes from the separator or
from one of the parts. -/
theorem mem_pyJoin {c : Char} (sep : String) (l : List String)
    (h : c ∈ (pyJoin sep l).toList) :
    c ∈ sep.toList ∨ ∃ f ∈ l, c ∈ f.toList := by
  induction l with
  | nil =>
    rw [pyJoin] at h
    exact absurd h (List.not_mem_nil c)
  | cons x xs ih =>
    cases xs with
    | nil =>
      simp only [pyJoin] at h
      exact Or.inr ⟨x, by simp, h⟩
    | cons y ys =>
      simp only [pyJoin] at h
      rw [toList_append, toList_append] at h
      rcases List.mem_append.1 h with h1 | h2
      · rcases List.mem_append.1 h1 with ha | hb
        · exact Or.inr ⟨x, by simp, ha⟩
        · exact Or.inl hb
      · rcases ih h2 with hs | ⟨f, hfm, hcf⟩
        · exact Or.inl hs
        · exact Or.inr ⟨f, by simp [hfm], hcf⟩

/-- C5 (amended): for every call to `get_casts`, when `show_all` is
false the generated query string contains the argument filter
`(isTemplate: true)` on the casts field; when `show_all` is true the
query string does not contain that filter, provided no requested field
name contains a parenthesis character (field names are plain GraphQL
identifiers). -/
theorem get_casts_template_filter (fields : List String) :
    substrOf "(isTemplate: true)" (get_casts_query fields false)
    ∧ ((∀ f ∈ fields, '(' ∉ f.toList) →
      ¬ substrOf "(isTemplate: true)" (get_casts_query fields true)) := by
  constructor
  · refine ⟨("\x7b\n              currentUser \x7b\n                organizations \x7b\n                  casts ").toList,
      (" \x7b\n                    "
        ++ pyJoin " " (if fields.isEmpty then ["eid", "title", "fieldInfo"] else fields)
        ++ "\n                  \x7d\n                \x7d\n              \x7d\n            \x7d").toList, ?_⟩
    simp [get_casts_query, substrOf, toList_append]
  · intro hf hsub
    have hpin : '(' ∈ "(isTemplate: true)".toList := by decide
    have hp : '(' ∈ (get_casts_query fields true).toList := hsub.subset hpin
    have hfields : ∀ f ∈ (if fields = [] then ["eid", "title", "fieldInfo"] else fields),
        '(' ∉ f.toList := by
      split
      · intro f hfm
        simp only [List.mem_cons, List.not_mem_nil, or_false] at hfm
        rcases hfm with rfl | rfl | rfl <;> decide
      · exact hf
    have hJ : '(' ∉ (pyJoin " "
        (if fields = [] then ["eid", "title", "fieldInfo"] else fields)).toList := by
      intro hm
      rcases mem_pyJoin " " _ hm with hs | ⟨f, hfm, hcf⟩
      · exact (by decide : ¬ ('(' ∈ " ".toList)) hs
      · exact hfields f hfm hcf
    have hA : '(' ∉ ("\x7b\n              currentUser \x7b\n                organizations \x7b\n                  casts ").toList := by decide
    have hC : '(' ∉ (" \x7b\n                    ").toList := by decide
    have hD : '(' ∉ ("\n                  \x7d\n                \x7d\n              \x7d\n            \x7d").toList := by decide
    have hE : '(' ∉ ("" : String).toList := by decide
    simp [get_casts_query, toList_append, List.mem_append, hA, hC, hD, hE] at hp
    exact hJ hp

/-- C5 counterexample: with `show_all = true` and a requested field name
that itself contains the filter text, the generated query still
contains `(isTemplate: true)`, so the unamended claim fails. -/
theorem get_casts_template_filter_counterexample :
    substrOf "(isTemplate: true)" (get_casts_query ["(isTemplate: true)"] true) := by
  show "(isTemplate: true)".toList <:+: (get_casts_query ["(isTemplate: true)"] true).toList
  decide

/-- Witness for C5 at a concrete plain-identifier field list. -/
theorem get_casts_template_filter_witness :
    substrOf "(isTemplate: true)" (get_casts_query ["eid"] false)
    ∧ ¬ substrOf "(isTemplate: true)" (get_casts_query ["eid"] true) :=
  ⟨(get_casts_template_filter ["eid"]).1,
   (get_casts_template_filter ["eid"]).2 (by decide)⟩

/-- C6: `get_cast` with no `fields` argument requests exactly the
default fields `eid title fieldInfo`, and its argument list is exactly
the quoted-eid pair, rendered `(eid:"<eid>")`; the operation returns
the `cast` field extracted from the response data. -/
theorem get_cast_default_query (eid : String) :
    get_cast_query eid [] none []
      = "\x7b\n              cast (eid:\"" ++ eid
        ++ "\") \x7b\n                eid title fieldInfo\n              \x7d\n            \x7d"
    ∧ (∀ res dv c, (dlookup res "response" = none ∨ dlookup res "headers" = none) →
        dlookup res "data" = some dv → dv.getKey "cast" = some c →
        get_cast_result res = some c) := by
  constructor
  · have hpre : "\x7b\n              cast " ++ "(" ++ "eid" ++ ":" ++ "\""
        = "\x7b\n              cast (eid:\"" := by decide
    have hsuf : "\"" ++ ")" ++ " \x7b\n                "
          ++ ("eid" ++ " " ++ ("title" ++ " " ++ "fieldInfo")) ++ "\n              \x7d\n            \x7d"
        = "\") \x7b\n                eid title fieldInfo\n              \x7d\n            \x7d" := by decide
    calc get_cast_query eid [] none []
        = "\x7b\n              cast " ++ "(" ++ "eid" ++ ":" ++ "\"" ++ eid
            ++ ("\"" ++ ")" ++ " \x7b\n                "
              ++ ("eid" ++ " " ++ ("title" ++ " " ++ "fieldInfo"))
              ++ "\n              \x7d\n            \x7d") := by
          apply String.ext
          simp [get_cast_query, get_cast_args, pyJoin, String.data_append]
      _ = "\x7b\n              cast (eid:\"" ++ eid
            ++ "\") \x7b\n                eid title fieldInfo\n              \x7d\n            \x7d" := by
          rw [hpre, hsuf]
  · intro res dv c hbare hdata hcast
    have hunwrap : _get_return res cast_get_data = cast_get_data (.dict res) := by
      rcases hbare with h | h
      · cases hh : dlookup res "headers" <;> simp [_get_return, h, hh]
      · cases hr : dlookup res "response" <;> simp [_get_return, h, hr]
    have h1 : Val.getKey (Val.dict res) "data" = some dv := by
      simpa [Val.getKey] using hdata
    rw [get_cast_result, hunwrap]
    simp [cast_get_data, h1, hcast]

/-- Witness for C6 at a concrete eid and a concrete bare response. -/
theorem get_cast_default_query_witness :
    get_cast_query "X" [] none []
      = "\x7b\n              cast (eid:\"" ++ "X"
        ++ "\") \x7b\n                eid title fieldInfo\n              \x7d\n            \x7d"
    ∧ get_cast_result [("data", Val.dict [("cast", Val.str "c")])] = some (Val.str "c") :=
  ⟨(get_cast_default_query "X").1,
   (get_cast_default_query "X").2 [("data", Val.dict [("cast", Val.str "c")])]
     (Val.dict [("cast", Val.str "c")]) (Val.str "c") (Or.inl rfl) rfl rfl⟩
